import Mathlib

/-
  Verification of the telemedicine booking backend.

  This file gives a shallow embedding of the backend's domain operations
  (auth controller, slot controller, consultation controller, prescription
  controller) over an explicit database state, and proves or refutes the
  frozen claims about them.

  Modelling conventions:
  - Row ids are `Nat`; the store's id generation is modelled by a `nextId`
    counter on the database state.
  - Dates (`YYYY-MM-DD`) and times (`HH:MM:SS`) are fixed-width strings in
    the code, compared lexicographically by the store; on well-formed values
    that order coincides with numeric order, so they are modelled as `Nat`.
  - Every operation takes the database state and returns the new state
    together with `Except AppErr (Nat × α)`: a thrown `AppError` (carrying
    its HTTP status code and message) or the HTTP success code and payload.
  - Store-level write failures (insert/update errors) that the code
    compensates for are modelled by explicit fault flags.
  - The password hash and the signed session token are modelled abstractly:
    the hash is an injective tag of the password, the token is the signed
    payload record `{id, email, role}`.
-/

namespace Telemed

/-- Error raised by the controllers: HTTP status code plus message. -/
structure AppErr where
  status : Nat
  msg : String
deriving DecidableEq

/-- Role of a user account (`ausers.role`). -/
inductive Role where
  | user
  | doctor
  | admin
deriving DecidableEq

/-- Status of an availability slot (`aavailability_slots.status`). -/
inductive SlotStatus where
  | available
  | booked
  | blocked
deriving DecidableEq

/-- Lifecycle status of a consultation (`aconsultations.status`). -/
inductive ConsultStatus where
  | scheduled
  | ongoing
  | completed
  | cancelled
  | noShow
deriving DecidableEq

/-- String form of a consultation status, as interpolated into messages. -/
def statusStr : ConsultStatus → String
  | .scheduled => "scheduled"
  | .ongoing => "ongoing"
  | .completed => "completed"
  | .cancelled => "cancelled"
  | .noShow => "no_show"

/-- Row of `ausers`. -/
structure User where
  id : Nat
  email : String
  phone : Option String := none
  passwordHash : String
  role : Role
  isActive : Bool := true
  lastLogin : Option Nat := none
deriving DecidableEq

/-- Row of `aprofiles` (1:1 with `ausers`). -/
structure Profile where
  id : Nat
  userId : Nat
  firstName : String
  lastName : String
  dateOfBirth : Option String := none
  gender : Option String := none
deriving DecidableEq

/-- Row of `adoctors` (fields used by the verified operations). -/
structure Doctor where
  id : Nat
  userId : Nat
  consultationFee : Nat := 0
deriving DecidableEq

/-- Row of `aavailability_slots`. -/
structure Slot where
  id : Nat
  doctorId : Nat
  slotDate : Nat
  startTime : Nat
  endTime : Nat
  status : SlotStatus
  createdBy : Nat := 0
deriving DecidableEq

/-- Row of `aconsultations`. -/
structure Consultation where
  id : Nat
  patientId : Nat
  doctorId : Nat
  slotId : Option Nat := none
  consultationDate : Nat := 0
  startTime : Nat := 0
  endTime : Nat := 0
  status : ConsultStatus
  chiefComplaint : String := ""
  diagnosis : Option String := none
  notes : Option String := none
  meetingLink : Option String := none
deriving DecidableEq

/-- Row of `aprescriptions`. -/
structure Prescription where
  id : Nat
  consultationId : Nat
  doctorId : Nat
  patientId : Nat
  notes : Option String := none
deriving DecidableEq

/-- Row of `aprescription_items`. -/
structure PrescriptionItem where
  prescriptionId : Nat
  medicineId : Nat
  dosage : String
  frequency : String
  durationDays : Nat
  instructions : Option String := none
deriving DecidableEq

/-- Row of `amedicines` (fields used by the verified operations). -/
structure Medicine where
  id : Nat
  name : String
  inStock : Bool := true
deriving DecidableEq

/-- Row of `apayments`. -/
structure Payment where
  id : Nat
  consultationId : Nat
  patientId : Nat
  amount : Nat
  payStatus : String
deriving DecidableEq

/-- State of the remote store: one list of rows per table, plus the id
generator. -/
structure DB where
  users : List User := []
  profiles : List Profile := []
  doctors : List Doctor := []
  slots : List Slot := []
  consultations : List Consultation := []
  prescriptions : List Prescription := []
  prescriptionItems : List PrescriptionItem := []
  payments : List Payment := []
  medicines : List Medicine := []
  nextId : Nat := 1
deriving DecidableEq

/-- Lookup of a slot row by primary key (`.eq('id', ...).single()`). -/
def findSlot (db : DB) (i : Nat) : Option Slot :=
  db.slots.find? (fun s => s.id == i)

/-- Lookup of a consultation row by primary key. -/
def findConsultation (db : DB) (i : Nat) : Option Consultation :=
  db.consultations.find? (fun c => c.id == i)

/-- Lookup of the doctor row belonging to a user
(`adoctors.eq('user_id', uid).single()`). -/
def findDoctorByUser (db : DB) (uid : Nat) : Option Doctor :=
  db.doctors.find? (fun d => d.userId == uid)

/-- Result type of every operation: the post-state of the store, and either
a thrown `AppError` or the HTTP success code with the response payload. -/
abbrev OpResult (α : Type) := DB × Except AppErr (Nat × α)

/-! ## Slot controller: createSlot -/

/-- Overlap query issued by `createSlot`: slots of the same doctor on the
same date with `start_time <= newEnd` and `end_time >= newStart` (the
PostgREST filter `and(start_time.lte.end,end_time.gte.start)`). Note the
comparisons are non-strict: the check treats the interval as closed. -/
def overlapQuery (db : DB) (doctorId slotDate startTime endTime : Nat) : List Slot :=
  db.slots.filter (fun s =>
    decide (s.doctorId = doctorId ∧ s.slotDate = slotDate ∧
      s.startTime ≤ endTime ∧ startTime ≤ s.endTime))

/-- Row inserted by `createSlot`: the requested interval with status
`available` and the caller as creator. -/
def newSlot (db : DB) (doctorId slotDate startTime endTime uid : Nat) : Slot :=
  { id := db.nextId, doctorId := doctorId, slotDate := slotDate,
    startTime := startTime, endTime := endTime,
    status := .available, createdBy := uid }

/-- Embedding of `createSlot` (slotController.ts). The schema check
`endTime > startTime` is the `createSlotSchema.refine`, thrown as a 400
validation error. -/
def createSlot (db : DB) (uid : Nat) (slotDate startTime endTime : Nat) :
    OpResult Slot :=
  if ¬ startTime < endTime then (db, .error ⟨400, "Validation failed"⟩)
  else
    match findDoctorByUser db uid with
    | none => (db, .error ⟨404, "Doctor profile not found"⟩)
    | some doctor =>
      if overlapQuery db doctor.id slotDate startTime endTime ≠ [] then
        (db, .error ⟨409, "This time slot overlaps with an existing slot"⟩)
      else
        let slot : Slot := newSlot db doctor.id slotDate startTime endTime uid
        ({ db with slots := db.slots ++ [slot], nextId := db.nextId + 1 },
          .ok (201, slot))

/-! ## Consultation controller: bookConsultation / cancelConsultation -/

/-- Fault flags for the three store writes performed by `bookConsultation`:
the consultation insert, the slot-status update, and the payment insert. -/
structure BookFaults where
  consultInsert : Bool := false
  slotUpdate : Bool := false
  paymentInsert : Bool := false
deriving DecidableEq

/-- Comparison `new Date(slot_date + T + start_time) < new Date()`: the slot
datetime is strictly before now. Dates and times compare componentwise as on
well-formed ISO strings. -/
def dtPast (slotDate startTime nowDate nowTime : Nat) : Bool :=
  decide (slotDate < nowDate) || (slotDate == nowDate && decide (startTime < nowTime))

/-- Consultation row inserted by `bookConsultation`: the slot's date and
interval, status `scheduled`, the caller as patient. -/
def newConsultation (db : DB) (uid doctorId slotId : Nat) (slot : Slot)
    (complaint : String) : Consultation :=
  { id := db.nextId, patientId := uid, doctorId := doctorId,
    slotId := some slotId, consultationDate := slot.slotDate,
    startTime := slot.startTime, endTime := slot.endTime,
    status := .scheduled, chiefComplaint := complaint }

/-- Payment row inserted by `bookConsultation`: `pending`, amount the
doctor's consultation fee. -/
def newPayment (db : DB) (consultationId uid fee : Nat) : Payment :=
  { id := db.nextId, consultationId := consultationId, patientId := uid,
    amount := fee, payStatus := "pending" }

/-- Store update `aavailability_slots.update({status}).eq('id', i)`. -/
def setSlotStatus (l : List Slot) (i : Nat) (st : SlotStatus) : List Slot :=
  l.map (fun s => if s.id == i then { s with status := st } else s)

/-- Store update `aconsultations.update({status}).eq('id', i)`. -/
def setConsultStatus (l : List Consultation) (i : Nat) (st : ConsultStatus) :
    List Consultation :=
  l.map (fun c => if c.id == i then { c with status := st } else c)

/-- Embedding of `bookConsultation` (consultationController.ts): guards in
source order, then consultation insert, slot update (with compensating
delete of the consultation on failure), and best-effort payment insert
whose failure is only logged. -/
def bookConsultation (db : DB) (uid doctorId slotId : Nat) (complaint : String)
    (nowDate nowTime : Nat) (faults : BookFaults) : OpResult Consultation :=
  match findSlot db slotId with
  | none => (db, .error ⟨404, "Slot not found"⟩)
  | some slot =>
    if slot.status ≠ .available then
      (db, .error ⟨400, "This slot is not available for booking"⟩)
    else if slot.doctorId ≠ doctorId then
      (db, .error ⟨400, "Slot does not belong to the specified doctor"⟩)
    else if dtPast slot.slotDate slot.startTime nowDate nowTime then
      (db, .error ⟨400, "Cannot book a slot in the past"⟩)
    else if faults.consultInsert then
      (db, .error ⟨500, "Failed to book consultation"⟩)
    else
      let c := newConsultation db uid doctorId slotId slot complaint
      let db1 := { db with consultations := db.consultations ++ [c],
                           nextId := db.nextId + 1 }
      if faults.slotUpdate then
        ({ db1 with
            consultations := db1.consultations.filter (fun x => x.id != c.id) },
          .error ⟨500, "Failed to book slot"⟩)
      else
        let db2 := { db1 with slots := setSlotStatus db1.slots slotId .booked }
        if faults.paymentInsert then
          (db2, .ok (201, c))
        else
          let fee := ((db.doctors.find? (fun d => d.id == slot.doctorId)).map
            (fun d => d.consultationFee)).getD 0
          ({ db2 with payments := db2.payments ++ [newPayment db2 c.id uid fee],
                      nextId := db2.nextId + 1 },
            .ok (201, c))

/-- Embedding of `cancelConsultation` (consultationController.ts): load,
ownership check for patients, terminal-state guard, then status update and
freeing of the referenced slot. -/
def cancelConsultation (db : DB) (uid : Nat) (role : Role)
    (consultationId : Nat) : OpResult Unit :=
  match findConsultation db consultationId with
  | none => (db, .error ⟨404, "Consultation not found"⟩)
  | some c =>
    if role = .user ∧ c.patientId ≠ uid then
      (db, .error ⟨403, "You can only cancel your own consultations"⟩)
    else if c.status = .completed ∨ c.status = .cancelled then
      (db, .error ⟨400, "Cannot cancel a " ++ statusStr c.status ++ " consultation"⟩)
    else
      let db1 := { db with
        consultations := setConsultStatus db.consultations consultationId .cancelled }
      match c.slotId with
      | some sid =>
        ({ db1 with slots := setSlotStatus db1.slots sid .available },
          .ok (200, ()))
      | none => (db1, .ok (200, ()))

/-! ## Consultation/slot partial updates -/

/-- Partial update payload accepted by `updateConsultationSchema` (all
fields optional; status may be any of the five lifecycle values). -/
structure ConsultationUpdate where
  status : Option ConsultStatus := none
  diagnosis : Option String := none
  notes : Option String := none
  meetingLink : Option String := none
deriving DecidableEq

/-- Partial-update semantics of `aconsultations.update(validatedData)`:
only the provided keys change. -/
def applyConsultationUpdate (u : ConsultationUpdate) (c : Consultation) :
    Consultation :=
  { c with
      status := u.status.getD c.status,
      diagnosis := if u.diagnosis.isSome then u.diagnosis else c.diagnosis,
      notes := if u.notes.isSome then u.notes else c.notes,
      meetingLink := if u.meetingLink.isSome then u.meetingLink else c.meetingLink }

/-- Owner user id of a doctor row, as produced by the `adoctors(user_id)`
join (none when the doctor row is missing, matching the undefined chain). -/
def doctorOwner (db : DB) (doctorId : Nat) : Option Nat :=
  (db.doctors.find? (fun d => d.id == doctorId)).map (fun d => d.userId)

/-- Embedding of `updateConsultation` (consultationController.ts): load,
doctor-ownership check, unguarded partial update (no lifecycle guard), then
slot freeing when the new status is `cancelled`. -/
def updateConsultation (db : DB) (uid : Nat) (role : Role)
    (consultationId : Nat) (u : ConsultationUpdate) : OpResult Consultation :=
  match findConsultation db consultationId with
  | none => (db, .error ⟨404, "Consultation not found"⟩)
  | some c =>
    if role = .doctor ∧ doctorOwner db c.doctorId ≠ some uid then
      (db, .error ⟨403, "You can only update your own consultations"⟩)
    else
      let db1 := { db with
        consultations := db.consultations.map
          (fun x => if x.id == consultationId then applyConsultationUpdate u x else x) }
      let db2 :=
        if u.status = some .cancelled then
          match c.slotId with
          | some sid =>
            { db1 with slots := setSlotStatus db1.slots sid .available }
          | none => db1
        else db1
      (db2, .ok (200, applyConsultationUpdate u c))

/-- Partial update payload accepted by `updateSlotSchema` (all fields
optional; no cross-field or status-transition constraint). -/
structure SlotUpdate where
  slotDate : Option Nat := none
  startTime : Option Nat := none
  endTime : Option Nat := none
  status : Option SlotStatus := none
deriving DecidableEq

/-- Partial-update semantics of `aavailability_slots.update(validatedData)`. -/
def applySlotUpdate (u : SlotUpdate) (s : Slot) : Slot :=
  { s with
      slotDate := u.slotDate.getD s.slotDate,
      startTime := u.startTime.getD s.startTime,
      endTime := u.endTime.getD s.endTime,
      status := u.status.getD s.status }

/-- Embedding of `updateSlot` (slotController.ts): load, doctor-ownership
check (admin unrestricted), then unguarded update — in particular there is
no check on the slot's current status. -/
def updateSlot (db : DB) (uid : Nat) (role : Role) (slotId : Nat)
    (u : SlotUpdate) : OpResult Slot :=
  match findSlot db slotId with
  | none => (db, .error ⟨404, "Slot not found"⟩)
  | some slot =>
    if role = .doctor ∧ doctorOwner db slot.doctorId ≠ some uid then
      (db, .error ⟨403, "You can only update your own slots"⟩)
    else
      ({ db with
          slots := db.slots.map
            (fun s => if s.id == slotId then applySlotUpdate u s else s) },
        .ok (200, applySlotUpdate u slot))

/-! ## Auth controller: register / login -/

/-- Abstract model of the bcrypt hash: an injective tag of the password. -/
def hashPassword (p : String) : String := "bcrypt$" ++ p

/-- Abstract model of `bcrypt.compare(password, hash)`. -/
def bcryptCompare (password hash : String) : Bool :=
  hash == hashPassword password

/-- Signed session token payload (`jwt.sign({id, email, role}, ...)`). -/
structure Token where
  id : Nat
  email : String
  role : Role
deriving DecidableEq

/-- Registration payload after `registerSchema.parse` (the schema restricts
the role to `user` or `doctor`, defaulting to `user`). -/
structure RegisterPayload where
  email : String
  password : String
  phone : Option String := none
  role : Role := .user
  firstName : String
  lastName : String
  dateOfBirth : Option String := none
  gender : Option String := none
deriving DecidableEq

/-- Fault flags for the two inserts performed by `register`. -/
structure RegFaults where
  userInsert : Bool := false
  profileInsert : Bool := false
deriving DecidableEq

/-- User row inserted by `register`. -/
def newUser (db : DB) (p : RegisterPayload) : User :=
  { id := db.nextId, email := p.email, phone := p.phone,
    passwordHash := hashPassword p.password, role := p.role }

/-- Profile row inserted by `register`. -/
def newProfile (db : DB) (p : RegisterPayload) (userId : Nat) : Profile :=
  { id := db.nextId, userId := userId, firstName := p.firstName,
    lastName := p.lastName, dateOfBirth := p.dateOfBirth, gender := p.gender }

/-- Embedding of `register` (authController.ts): duplicate-email check,
user insert, profile insert with compensating delete of the user on
failure, then token issuance. -/
def register (db : DB) (p : RegisterPayload) (faults : RegFaults) :
    OpResult Token :=
  match db.users.find? (fun u => u.email == p.email) with
  | some _ => (db, .error ⟨409, "User with this email already exists"⟩)
  | none =>
    if faults.userInsert then (db, .error ⟨500, "Failed to create user"⟩)
    else
      let u := newUser db p
      let db1 := { db with users := db.users ++ [u], nextId := db.nextId + 1 }
      if faults.profileInsert then
        ({ db1 with users := db1.users.filter (fun x => x.id != u.id) },
          .error ⟨500, "Failed to create user profile"⟩)
      else
        let pr := newProfile db1 p u.id
        ({ db1 with profiles := db1.profiles ++ [pr],
                    nextId := db1.nextId + 1 },
          .ok (201, ⟨u.id, u.email, u.role⟩))

/-- Embedding of `login` (authController.ts): email lookup, deactivation
check (before password verification), password check, best-effort
last-login update, token issuance. -/
def login (db : DB) (email password : String) (now : Nat) : OpResult Token :=
  match db.users.find? (fun u => u.email == email) with
  | none => (db, .error ⟨401, "Invalid email or password"⟩)
  | some u =>
    if ¬ u.isActive then (db, .error ⟨403, "Account is deactivated"⟩)
    else if ¬ bcryptCompare password u.passwordHash then
      (db, .error ⟨401, "Invalid email or password"⟩)
    else
      let db1 := { db with
        users := db.users.map
          (fun x => if x.id == u.id then { x with lastLogin := some now } else x) }
      (db1, .ok (200, ⟨u.id, u.email, u.role⟩))

/-! ## Prescription controller: createPrescription -/

/-- Prescription item in the request payload (`createPrescriptionSchema`). -/
structure PrescriptionItemReq where
  medicineId : Nat
  dosage : String := "500mg"
  frequency : String := "daily"
  durationDays : Nat := 1
  instructions : Option String := none
deriving DecidableEq

/-- Fault flags for the two inserts performed by `createPrescription`. -/
structure PrescFaults where
  prescriptionInsert : Bool := false
  itemsInsert : Bool := false
deriving DecidableEq

/-- Batch medicine query `amedicines.select(...).in('id', medicineIds)`:
one row per matching table row (so requesting the same id twice still
yields a single row when table ids are unique). -/
def requestedMedicines (db : DB) (ids : List Nat) : List Medicine :=
  db.medicines.filter (fun m => ids.contains m.id)

/-- Names of the out-of-stock medicines among the requested ones, in table
order (`medicines.filter(m => !m.in_stock).map(m => m.name)`). -/
def outOfStockNames (db : DB) (ids : List Nat) : List String :=
  ((requestedMedicines db ids).filter (fun m => !m.inStock)).map
    (fun m => m.name)

/-- Prescription row inserted by `createPrescription`. -/
def newPrescription (db : DB) (consultationId doctorId patientId : Nat)
    (notes : Option String) : Prescription :=
  { id := db.nextId, consultationId := consultationId, doctorId := doctorId,
    patientId := patientId, notes := notes }

/-- Item rows bulk-inserted by `createPrescription`. -/
def newItems (prescriptionId : Nat) (items : List PrescriptionItemReq) :
    List PrescriptionItem :=
  items.map (fun it =>
    { prescriptionId := prescriptionId, medicineId := it.medicineId,
      dosage := it.dosage, frequency := it.frequency,
      durationDays := it.durationDays, instructions := it.instructions })

/-- Embedding of `createPrescription` (prescription controller): doctor
resolution, consultation ownership and status guards, duplicate check,
batch medicine query compared by length against the raw id list, stock
check listing offending names, then prescription insert and bulk item
insert with compensating delete of the prescription on item failure. The
schema requires at least one item. -/
def createPrescription (db : DB) (uid consultationId : Nat)
    (items : List PrescriptionItemReq) (notes : Option String)
    (faults : PrescFaults) : OpResult Prescription :=
  if items.length < 1 then (db, .error ⟨400, "Validation failed"⟩)
  else
    match findDoctorByUser db uid with
    | none => (db, .error ⟨404, "Doctor profile not found"⟩)
    | some doctor =>
      match findConsultation db consultationId with
      | none => (db, .error ⟨404, "Consultation not found"⟩)
      | some consultation =>
        if consultation.doctorId ≠ doctor.id then
          (db, .error ⟨403, "You can only prescribe for your own consultations"⟩)
        else if consultation.status ≠ .completed ∧ consultation.status ≠ .ongoing then
          (db, .error ⟨400, "Can only prescribe for ongoing or completed consultations"⟩)
        else
          match db.prescriptions.find?
              (fun pr => pr.consultationId == consultationId) with
          | some _ =>
            (db, .error ⟨409, "Prescription already exists for this consultation"⟩)
          | none =>
            let medicineIds := items.map (fun it => it.medicineId)
            if (requestedMedicines db medicineIds).length ≠ medicineIds.length then
              (db, .error ⟨404, "One or more medicines not found"⟩)
            else if outOfStockNames db medicineIds ≠ [] then
              (db, .error ⟨400, "Following medicines are out of stock: " ++
                String.intercalate ", " (outOfStockNames db medicineIds)⟩)
            else if faults.prescriptionInsert then
              (db, .error ⟨500, "Failed to create prescription"⟩)
            else
              let pr := newPrescription db consultationId doctor.id
                consultation.patientId notes
              let db1 := { db with
                prescriptions := db.prescriptions ++ [pr],
                nextId := db.nextId + 1 }
              if faults.itemsInsert then
                ({ db1 with
                    prescriptions := db1.prescriptions.filter
                      (fun x => x.id != pr.id) },
                  .error ⟨500, "Failed to create prescription items"⟩)
              else
                ({ db1 with
                    prescriptionItems := db1.prescriptionItems ++
                      newItems pr.id items },
                  .ok (201, pr))

/-! ## Concrete state for the slot-creation scenario -/

/-- Store holding one doctor (id 1, user 10) and one available slot
`09:00-09:30` (minutes 540-570) on date 0 for that doctor. -/
def slotScenarioDB : DB :=
  { doctors := [{ id := 1, userId := 10, consultationFee := 500 }],
    slots := [{ id := 1, doctorId := 1, slotDate := 0, startTime := 540,
                endTime := 570, status := .available, createdBy := 10 }],
    nextId := 2 }

/-- Slot used by the booking scenarios: slot 1 of doctor 1, date 5,
interval 540-570, available. -/
def bookSlot1 : Slot :=
  { id := 1, doctorId := 1, slotDate := 5, startTime := 540,
    endTime := 570, status := .available, createdBy := 10 }

/-- Store for the booking scenarios: doctor 1 (user 10), patient user 20,
and one available slot (id 1) on date 5 at 540-570. -/
def bookScenarioDB : DB :=
  { users := [{ id := 20, email := "patient@example.com",
                passwordHash := "bcrypt$pw", role := .user }],
    doctors := [{ id := 1, userId := 10, consultationFee := 500 }],
    slots := [bookSlot1],
    nextId := 30 }

/-- Second slot for the guard-order scenarios: slot 2 of doctor 1, already
booked. -/
def bookSlot2 : Slot :=
  { id := 2, doctorId := 1, slotDate := 5, startTime := 600,
    endTime := 630, status := .booked, createdBy := 10 }

/-- Booking store with an available slot (id 1) and a booked slot (id 2). -/
def guardScenarioDB : DB :=
  { bookScenarioDB with slots := [bookSlot1, bookSlot2] }

/-- Consultation of patient 20 with doctor 1 on slot 1, already completed. -/
def completedConsultation : Consultation :=
  { id := 1, patientId := 20, doctorId := 1, slotId := some 1,
    consultationDate := 5, startTime := 540, endTime := 570,
    status := .completed, chiefComplaint := "fever" }

/-- Consultation of patient 20 with doctor 1 on slot 1, still scheduled. -/
def scheduledConsultation : Consultation :=
  { id := 2, patientId := 20, doctorId := 1, slotId := some 1,
    consultationDate := 5, startTime := 540, endTime := 570,
    status := .scheduled, chiefComplaint := "fever" }

/-- Store with a completed consultation on a booked slot. -/
def terminalScenarioDB : DB :=
  { bookScenarioDB with
      slots := [{ bookSlot1 with status := .booked }],
      consultations := [completedConsultation] }

/-- Store with a scheduled consultation on a booked slot. -/
def bookedScenarioDB : DB :=
  { bookScenarioDB with
      slots := [{ bookSlot1 with status := .booked }],
      consultations := [scheduledConsultation] }

/-- Active account with password `correct-pw`. -/
def activeUser : User :=
  { id := 1, email := "active@example.com",
    passwordHash := hashPassword "correct-pw", role := .user }

/-- Deactivated account with password `correct-pw`. -/
def deactivatedUser : User :=
  { id := 2, email := "dead@example.com",
    passwordHash := hashPassword "correct-pw", role := .user,
    isActive := false }

/-- Auth store: one active and one deactivated account. -/
def authScenarioDB : DB :=
  { users := [activeUser, deactivatedUser], nextId := 3 }

/-- Registration payload reusing the active account's email. -/
def dupPayload : RegisterPayload :=
  { email := "active@example.com", password := "pw123456",
    firstName := "Ann", lastName := "Lee" }

/-- Registration payload with a fresh email. -/
def freshPayload : RegisterPayload :=
  { email := "new@example.com", password := "pw123456",
    firstName := "New", lastName := "User" }

/-- In-stock medicine 1. -/
def med1 : Medicine := { id := 1, name := "Paracetamol" }

/-- In-stock medicine 2. -/
def med2 : Medicine := { id := 2, name := "Ibuprofen" }

/-- Out-of-stock medicine 3. -/
def med3 : Medicine := { id := 3, name := "Amoxicillin", inStock := false }

/-- Store with doctor 1 (user 10), an ongoing consultation (id 1) of
patient 20, and the three-medicine catalog. -/
def prescScenarioDB : DB :=
  { doctors := [{ id := 1, userId := 10, consultationFee := 500 }],
    consultations := [{ completedConsultation with status := .ongoing }],
    medicines := [med1, med2, med3],
    nextId := 50 }

/-- Prescription already stored for consultation 1. -/
def existingPrescription : Prescription :=
  { id := 40, consultationId := 1, doctorId := 1, patientId := 20 }

/-- Prescription store in which consultation 1 already has a prescription. -/
def prescDupDB : DB :=
  { prescScenarioDB with prescriptions := [existingPrescription] }

/-- Request item for a given medicine id with default dosage fields. -/
def itemReq (i : Nat) : PrescriptionItemReq := { medicineId := i }

/-! ## Helper lemmas on keyed row updates -/

/-- Finding a row by key after a keyed map-update finds the updated row. -/
theorem find?_update {α : Type} (key : α → Nat) (f : α → α) (i : Nat)
    (hf : ∀ a, key (f a) = key a) :
    ∀ l : List α,
      (l.map (fun a => if key a == i then f a else a)).find?
          (fun a => key a == i) =
        (l.find? (fun a => key a == i)).map f
  | [] => rfl
  | a :: l => by
    by_cases h : key a = i
    · rw [List.map_cons, if_pos (by simpa using h)]
      rw [List.find?_cons_of_pos _ (by simpa using hf a ▸ h)]
      rw [List.find?_cons_of_pos _ (by simpa using h)]
      rfl
    · rw [List.map_cons, if_neg (by simpa using h)]
      rw [List.find?_cons_of_neg _ (by simpa using h)]
      rw [List.find?_cons_of_neg _ (by simpa using h)]
      exact find?_update key f i hf l

/-- Finding a slot after `setSlotStatus` on its id yields the updated slot. -/
theorem find?_setSlotStatus (l : List Slot) (i : Nat) (st : SlotStatus) :
    (setSlotStatus l i st).find? (fun s => s.id == i) =
      (l.find? (fun s => s.id == i)).map (fun s => { s with status := st }) :=
  find?_update (fun s => s.id) (fun s => { s with status := st }) i
    (fun _ => rfl) l

/-- Finding a consultation after `setConsultStatus` on its id yields the
updated consultation. -/
theorem find?_setConsultStatus (l : List Consultation) (i : Nat)
    (st : ConsultStatus) :
    (setConsultStatus l i st).find? (fun c => c.id == i) =
      (l.find? (fun c => c.id == i)).map (fun c => { c with status := st }) :=
  find?_update (fun c => c.id) (fun c => { c with status := st }) i
    (fun _ => rfl) l

/-- Search past a prefix in which nothing matches. -/
theorem find?_append_right {α : Type} (p : α → Bool) :
    ∀ l₁ l₂ : List α, l₁.find? p = none → (l₁ ++ l₂).find? p = l₂.find? p
  | [], _, _ => by simp
  | a :: l₁, l₂, h => by
    have ha : p a = false := by
      by_contra hc
      rw [List.find?_cons_of_pos _ (by simpa using hc)] at h
      exact Option.noConfusion h
    rw [List.find?_cons_of_neg _ (by simp [ha])] at h
    rw [List.cons_append, List.find?_cons_of_neg _ (by simp [ha])]
    exact find?_append_right p l₁ l₂ h

/-- Deleting a freshly appended row by its key restores the original list,
provided no earlier row shares the key. -/
theorem filter_append_fresh {α : Type} (key : α → Nat) (c : α) :
    ∀ l : List α, (∀ a ∈ l, key a ≠ key c) →
      (l ++ [c]).filter (fun a => key a != key c) = l
  | [], _ => by simp
  | a :: l, h => by
    rw [List.cons_append, List.filter_cons_of_pos
      (by simpa using h a (List.mem_cons_self a l))]
    rw [filter_append_fresh key c l (fun x hx => h x (List.mem_cons_of_mem a hx))]

/-- The ids of the rows returned by the batch medicine query are distinct
whenever the table ids are. -/
theorem requestedMedicines_ids_nodup (db : DB) (ids : List Nat)
    (htable : (db.medicines.map (fun m => m.id)).Nodup) :
    ((requestedMedicines db ids).map (fun m => m.id)).Nodup :=
  htable.sublist ((List.filter_sublist db.medicines).map (fun m => m.id))

/-- Every id returned by the batch medicine query was requested. -/
theorem requestedMedicines_ids_subset (db : DB) (ids : List Nat) :
    ∀ x ∈ (requestedMedicines db ids).map (fun m => m.id), x ∈ ids := by
  intro x hx
  simp only [requestedMedicines, List.mem_map, List.mem_filter] at hx
  obtain ⟨m, ⟨_, hmem⟩, rfl⟩ := hx
  simpa using hmem

/-- When a requested id is missing from the table, the batch query returns
strictly fewer rows than requested ids. -/
theorem requested_length_lt_of_missing (db : DB) (ids : List Nat)
    (htable : (db.medicines.map (fun m => m.id)).Nodup)
    (idm : Nat) (hidm : idm ∈ ids)
    (hmiss : ∀ m ∈ db.medicines, m.id ≠ idm) :
    (requestedMedicines db ids).length < ids.length := by
  have hnodup := requestedMedicines_ids_nodup db ids htable
  have hsubset : ∀ x ∈ (requestedMedicines db ids).map (fun m => m.id),
      x ∈ ids.dedup.erase idm := by
    intro x hx
    have hxids : x ∈ ids := requestedMedicines_ids_subset db ids x hx
    have hxne : x ≠ idm := by
      simp only [requestedMedicines, List.mem_map, List.mem_filter] at hx
      obtain ⟨m, ⟨hm, _⟩, rfl⟩ := hx
      exact hmiss m hm
    exact (List.mem_erase_of_ne hxne).mpr (List.mem_dedup.mpr hxids)
  have h1 : (requestedMedicines db ids).length ≤ (ids.dedup.erase idm).length := by
    simpa using (hnodup.subperm hsubset).length_le
  have h2 : (ids.dedup.erase idm).length = ids.dedup.length - 1 :=
    List.length_erase_of_mem (List.mem_dedup.mpr hidm)
  have h3 : ids.dedup.length ≤ ids.length := (List.dedup_sublist ids).length_le
  have h4 : 0 < ids.dedup.length :=
    List.length_pos_of_mem (List.mem_dedup.mpr hidm)
  omega

/-- When the requested id list contains a duplicate, the batch query
returns strictly fewer rows than requested ids (even if every id exists). -/
theorem requested_length_lt_of_dup (db : DB) (ids : List Nat)
    (htable : (db.medicines.map (fun m => m.id)).Nodup)
    (hdup : ¬ ids.Nodup) :
    (requestedMedicines db ids).length < ids.length := by
  have hnodup := requestedMedicines_ids_nodup db ids htable
  have hsubset : ∀ x ∈ (requestedMedicines db ids).map (fun m => m.id),
      x ∈ ids.dedup :=
    fun x hx => List.mem_dedup.mpr (requestedMedicines_ids_subset db ids x hx)
  have h1 : (requestedMedicines db ids).length ≤ ids.dedup.length := by
    simpa using (hnodup.subperm hsubset).length_le
  have h2 : ids.dedup.length < ids.length := by
    rcases Nat.lt_or_ge ids.dedup.length ids.length with h | h
    · exact h
    · exfalso
      have heq := (List.dedup_sublist ids).eq_of_length
        (Nat.le_antisymm (List.dedup_sublist ids).length_le h)
      exact hdup (heq ▸ List.nodup_dedup ids)
  omega

/-! ## Claim theorems -/

/-- C1 counterexample: the spec's boundary-adjacency scenario fails on the
code. With an existing slot `09:00-09:30`, creating `09:30-10:00` for the
same doctor and date is rejected with 409 Conflict, because the overlap
query uses non-strict comparisons (`start_time <= newEnd` and
`end_time >= newStart`), which a touching boundary satisfies. -/
theorem c1_boundary_adjacent_conflicts :
    createSlot slotScenarioDB 10 0 570 600 =
      (slotScenarioDB,
        .error ⟨409, "This time slot overlaps with an existing slot"⟩) := by
  rfl

/-- C1 (amended): createSlot treats slot intervals as closed. For every
doctor and date, creation fails with 409 Conflict exactly when some existing
slot for that doctor and date satisfies `start ≤ newEnd ∧ newStart ≤ end`
(so boundary-adjacent creation also fails); when no existing slot satisfies
it, the slot is inserted with status `available` and returned with 201. -/
theorem c1_createSlot_closed_interval (db : DB) (uid slotDate startTime endTime : Nat)
    (doctor : Doctor)
    (hvalid : startTime < endTime)
    (hdoc : findDoctorByUser db uid = some doctor) :
    ((∃ s ∈ db.slots, s.doctorId = doctor.id ∧ s.slotDate = slotDate ∧
        s.startTime ≤ endTime ∧ startTime ≤ s.endTime) →
      createSlot db uid slotDate startTime endTime =
        (db, .error ⟨409, "This time slot overlaps with an existing slot"⟩)) ∧
    ((∀ s ∈ db.slots, ¬ (s.doctorId = doctor.id ∧ s.slotDate = slotDate ∧
        s.startTime ≤ endTime ∧ startTime ≤ s.endTime)) →
      createSlot db uid slotDate startTime endTime =
        ({ db with
            slots := db.slots ++ [newSlot db doctor.id slotDate startTime endTime uid],
            nextId := db.nextId + 1 },
          .ok (201, newSlot db doctor.id slotDate startTime endTime uid))) := by
  constructor
  · rintro ⟨s, hmem, hprop⟩
    have hne : overlapQuery db doctor.id slotDate startTime endTime ≠ [] := by
      intro hnil
      have : s ∈ overlapQuery db doctor.id slotDate startTime endTime := by
        simp only [overlapQuery, List.mem_filter, decide_eq_true_eq]
        exact ⟨hmem, hprop⟩
      rw [hnil] at this
      exact List.not_mem_nil s this
    simp only [createSlot, not_lt, hdoc]
    rw [if_neg (by omega), if_pos hne]
  · intro hnone
    have hnil : overlapQuery db doctor.id slotDate startTime endTime = [] := by
      simp only [overlapQuery, List.filter_eq_nil_iff, decide_eq_true_eq]
      exact hnone
    simp only [createSlot, not_lt, hdoc]
    rw [if_neg (by omega), if_neg (by simp [hnil])]

/-- C1 amended-theorem witness: both branches exercised on the concrete
scenario store — `09:15-09:45` conflicts with the existing `09:00-09:30`
slot, while `10:00-10:30` (strictly disjoint) is inserted as `available`. -/
theorem c1_createSlot_closed_interval_witness :
    createSlot slotScenarioDB 10 0 555 585 =
      (slotScenarioDB,
        .error ⟨409, "This time slot overlaps with an existing slot"⟩) ∧
    createSlot slotScenarioDB 10 0 600 630 =
      ({ slotScenarioDB with
          slots := slotScenarioDB.slots ++
            [newSlot slotScenarioDB 1 0 600 630 10],
          nextId := 3 },
        .ok (201, newSlot slotScenarioDB 1 0 600 630 10)) := by
  refine ⟨?_, ?_⟩
  · exact (c1_createSlot_closed_interval slotScenarioDB 10 0 555 585
      { id := 1, userId := 10, consultationFee := 500 }
      (by decide) (by decide)).1
      ⟨{ id := 1, doctorId := 1, slotDate := 0, startTime := 540,
         endTime := 570, status := .available, createdBy := 10 },
        by decide, by decide⟩
  · exact (c1_createSlot_closed_interval slotScenarioDB 10 0 600 630
      { id := 1, userId := 10, consultationFee := 500 }
      (by decide) (by decide)).2 (by decide)

/-- C2: booking an available slot transitions it `available → booked` and
appends exactly one `scheduled` consultation referencing it; cancelling that
consultation (by the booking patient) sets it `cancelled` and transitions
the slot back to `available`. -/
theorem c2_book_cancel_roundtrip (db : DB) (uid doctorId slotId : Nat)
    (complaint : String) (nowDate nowTime : Nat) (slot : Slot)
    (hslot : findSlot db slotId = some slot)
    (havail : slot.status = .available)
    (hdoc : slot.doctorId = doctorId)
    (hnotpast : dtPast slot.slotDate slot.startTime nowDate nowTime = false)
    (hfresh : ∀ c ∈ db.consultations, c.id ≠ db.nextId) :
    ∃ db1 c,
      bookConsultation db uid doctorId slotId complaint nowDate nowTime
          ⟨false, false, false⟩ = (db1, .ok (201, c)) ∧
      c.status = .scheduled ∧ c.slotId = some slotId ∧
      db1.consultations = db.consultations ++ [c] ∧
      (db1.consultations.filter (fun x => x.slotId == some slotId)).length =
        (db.consultations.filter (fun x => x.slotId == some slotId)).length + 1 ∧
      findSlot db1 slotId = some { slot with status := .booked } ∧
      ∃ db2,
        cancelConsultation db1 uid .user c.id = (db2, .ok (200, ())) ∧
        findConsultation db2 c.id = some { c with status := .cancelled } ∧
        findSlot db2 slotId = some { slot with status := .available } := by
  have hnavail : ¬ slot.status ≠ SlotStatus.available := by simp [havail]
  have hndoc : ¬ slot.doctorId ≠ doctorId := by simp [hdoc]
  obtain ⟨db1, c, hbook, hcons1, hslots1, hceq⟩ :
      ∃ db1 c,
        bookConsultation db uid doctorId slotId complaint nowDate nowTime
          ⟨false, false, false⟩ = (db1, .ok (201, c)) ∧
        db1.consultations = db.consultations ++ [c] ∧
        db1.slots = setSlotStatus db.slots slotId .booked ∧
        c = newConsultation db uid doctorId slotId slot complaint := by
    unfold bookConsultation
    rw [hslot]
    dsimp only
    rw [if_neg hnavail, if_neg hndoc, if_neg (by simp [hnotpast]),
      if_neg (by simp), if_neg (by simp), if_neg (by simp)]
    exact ⟨_, _, rfl, rfl, rfl, rfl⟩
  have hfindc : findConsultation db1 c.id = some c := by
    simp only [findConsultation, hcons1]
    rw [find?_append_right _ _ _ (List.find?_eq_none.mpr
      (fun x hx => by simpa [hceq, newConsultation] using hfresh x hx))]
    simp
  refine ⟨db1, c, hbook, by rw [hceq]; rfl, by rw [hceq]; rfl, hcons1, ?_, ?_, ?_⟩
  · simp [hcons1, List.filter_append, hceq, newConsultation]
  · simp only [findSlot, hslots1, setSlotStatus]
    rw [find?_update (fun s : Slot => s.id)
      (fun s : Slot => { s with status := SlotStatus.booked }) slotId
      (fun _ => rfl)]
    rw [show (db.slots.find? (fun s => s.id == slotId)) = some slot from hslot]
    rfl
  · obtain ⟨db2, hcan, hcons2, hslots2⟩ :
        ∃ db2,
          cancelConsultation db1 uid .user c.id = (db2, .ok (200, ())) ∧
          db2.consultations = setConsultStatus db1.consultations c.id .cancelled ∧
          db2.slots = setSlotStatus db1.slots slotId .available := by
      unfold cancelConsultation
      rw [hfindc]
      dsimp only
      rw [if_neg (by simp [hceq, newConsultation]),
        if_neg (by simp [hceq, newConsultation])]
      rw [show c.slotId = some slotId by rw [hceq]; rfl]
      exact ⟨_, rfl, rfl, rfl⟩
    refine ⟨db2, hcan, ?_, ?_⟩
    · simp only [findConsultation, hcons2, setConsultStatus]
      rw [find?_update (fun x : Consultation => x.id)
        (fun x : Consultation => { x with status := ConsultStatus.cancelled })
        c.id (fun _ => rfl)]
      rw [show (db1.consultations.find? (fun x => x.id == c.id)) = some c from hfindc]
      rfl
    · simp only [findSlot, hslots2, hslots1, setSlotStatus]
      rw [find?_update (fun s : Slot => s.id)
        (fun s : Slot => { s with status := SlotStatus.available }) slotId
        (fun _ => rfl)]
      rw [find?_update (fun s : Slot => s.id)
        (fun s : Slot => { s with status := SlotStatus.booked }) slotId
        (fun _ => rfl)]
      rw [show (db.slots.find? (fun s => s.id == slotId)) = some slot from hslot]
      rfl

/-- C2 witness: the round trip on the concrete booking store — patient 20
books slot 1 of doctor 1 and then cancels the created consultation. -/
theorem c2_book_cancel_roundtrip_witness :
    ∃ db1 c,
      bookConsultation bookScenarioDB 20 1 1 "fever" 4 0
          ⟨false, false, false⟩ = (db1, .ok (201, c)) ∧
      c.status = .scheduled ∧ c.slotId = some 1 ∧
      db1.consultations = bookScenarioDB.consultations ++ [c] ∧
      (db1.consultations.filter (fun x => x.slotId == some 1)).length =
        (bookScenarioDB.consultations.filter
          (fun x => x.slotId == some 1)).length + 1 ∧
      findSlot db1 1 = some { bookSlot1 with status := .booked } ∧
      ∃ db2,
        cancelConsultation db1 20 .user c.id = (db2, .ok (200, ())) ∧
        findConsultation db2 c.id = some { c with status := .cancelled } ∧
        findSlot db2 1 = some { bookSlot1 with status := .available } :=
  c2_book_cancel_roundtrip bookScenarioDB 20 1 1 "fever" 4 0 bookSlot1
    (by decide) (by decide) (by decide) (by decide) (by simp [bookScenarioDB])

/-- C3: the booking guards run in source order — missing slot gives 404;
then a non-available slot gives 400 regardless of the other conditions;
then a doctor mismatch gives 400 regardless of the time; then a past start
gives 400; only when every guard passes is the consultation inserted as
`scheduled` and the slot then updated to `booked`. -/
theorem c3_book_guard_order (db : DB) (uid doctorId slotId : Nat)
    (complaint : String) (nowDate nowTime : Nat) (faults : BookFaults) :
    (findSlot db slotId = none →
      bookConsultation db uid doctorId slotId complaint nowDate nowTime faults =
        (db, .error ⟨404, "Slot not found"⟩)) ∧
    (∀ slot, findSlot db slotId = some slot → slot.status ≠ .available →
      bookConsultation db uid doctorId slotId complaint nowDate nowTime faults =
        (db, .error ⟨400, "This slot is not available for booking"⟩)) ∧
    (∀ slot, findSlot db slotId = some slot → slot.status = .available →
      slot.doctorId ≠ doctorId →
      bookConsultation db uid doctorId slotId complaint nowDate nowTime faults =
        (db, .error ⟨400, "Slot does not belong to the specified doctor"⟩)) ∧
    (∀ slot, findSlot db slotId = some slot → slot.status = .available →
      slot.doctorId = doctorId →
      dtPast slot.slotDate slot.startTime nowDate nowTime = true →
      bookConsultation db uid doctorId slotId complaint nowDate nowTime faults =
        (db, .error ⟨400, "Cannot book a slot in the past"⟩)) ∧
    (∀ slot, findSlot db slotId = some slot → slot.status = .available →
      slot.doctorId = doctorId →
      dtPast slot.slotDate slot.startTime nowDate nowTime = false →
      faults.consultInsert = false → faults.slotUpdate = false →
      ∃ db1 c,
        bookConsultation db uid doctorId slotId complaint nowDate nowTime faults =
          (db1, .ok (201, c)) ∧
        c = newConsultation db uid doctorId slotId slot complaint ∧
        c.status = .scheduled ∧
        db1.consultations = db.consultations ++ [c] ∧
        db1.slots = setSlotStatus db.slots slotId .booked) := by
  refine ⟨?_, ?_, ?_, ?_, ?_⟩
  · intro h
    unfold bookConsultation
    rw [h]
  · intro slot h hstat
    unfold bookConsultation
    rw [h]
    dsimp only
    rw [if_pos hstat]
  · intro slot h hstat hdoc
    unfold bookConsultation
    rw [h]
    dsimp only
    rw [if_neg (by simp [hstat]), if_pos hdoc]
  · intro slot h hstat hdoc hpast
    unfold bookConsultation
    rw [h]
    dsimp only
    rw [if_neg (by simp [hstat]), if_neg (by simp [hdoc]), if_pos hpast]
  · intro slot h hstat hdoc hpast hci hsu
    unfold bookConsultation
    rw [h]
    dsimp only
    rw [if_neg (by simp [hstat]), if_neg (by simp [hdoc]),
      if_neg (by simp [hpast]), if_neg (by simp [hci]), if_neg (by simp [hsu])]
    by_cases hp : faults.paymentInsert = true
    · rw [if_pos hp]
      exact ⟨_, _, rfl, rfl, rfl, rfl, rfl⟩
    · rw [if_neg hp]
      exact ⟨_, _, rfl, rfl, rfl, rfl, rfl⟩

/-- C3 witness: each of the five guard branches exercised on the concrete
guard-scenario store (slot 99 absent, slot 2 booked, slot 1 available). -/
theorem c3_book_guard_order_witness :
    bookConsultation guardScenarioDB 20 1 99 "c" 4 0 ⟨false, false, false⟩ =
      (guardScenarioDB, .error ⟨404, "Slot not found"⟩) ∧
    bookConsultation guardScenarioDB 20 1 2 "c" 4 0 ⟨false, false, false⟩ =
      (guardScenarioDB,
        .error ⟨400, "This slot is not available for booking"⟩) ∧
    bookConsultation guardScenarioDB 20 7 1 "c" 4 0 ⟨false, false, false⟩ =
      (guardScenarioDB,
        .error ⟨400, "Slot does not belong to the specified doctor"⟩) ∧
    bookConsultation guardScenarioDB 20 1 1 "c" 9 0 ⟨false, false, false⟩ =
      (guardScenarioDB, .error ⟨400, "Cannot book a slot in the past"⟩) ∧
    ∃ db1 c,
      bookConsultation guardScenarioDB 20 1 1 "c" 4 0 ⟨false, false, false⟩ =
        (db1, .ok (201, c)) ∧
      c = newConsultation guardScenarioDB 20 1 1 bookSlot1 "c" ∧
      c.status = .scheduled ∧
      db1.consultations = guardScenarioDB.consultations ++ [c] ∧
      db1.slots = setSlotStatus guardScenarioDB.slots 1 .booked := by
  refine ⟨?_, ?_, ?_, ?_, ?_⟩
  · exact (c3_book_guard_order guardScenarioDB 20 1 99 "c" 4 0
      ⟨false, false, false⟩).1 (by decide)
  · exact (c3_book_guard_order guardScenarioDB 20 1 2 "c" 4 0
      ⟨false, false, false⟩).2.1 bookSlot2 (by decide) (by decide)
  · exact (c3_book_guard_order guardScenarioDB 20 7 1 "c" 4 0
      ⟨false, false, false⟩).2.2.1 bookSlot1 (by decide) (by decide) (by decide)
  · exact (c3_book_guard_order guardScenarioDB 20 1 1 "c" 9 0
      ⟨false, false, false⟩).2.2.2.1 bookSlot1 (by decide) (by decide)
      (by decide) (by decide)
  · exact (c3_book_guard_order guardScenarioDB 20 1 1 "c" 4 0
      ⟨false, false, false⟩).2.2.2.2 bookSlot1 (by decide) (by decide)
      (by decide) (by decide) (by decide) (by decide)

/-- C4: inside `bookConsultation`, a slot-update failure after the
consultation insert triggers the compensating delete of the just-created
consultation and the operation fails with 500; a payment-insert failure
alone is swallowed — the booking still returns 201 with the created
consultation, no payment row is added, and the slot is booked. -/
theorem c4_book_rollback_and_payment (db : DB) (uid doctorId slotId : Nat)
    (complaint : String) (nowDate nowTime : Nat) (slot : Slot) (pb : Bool)
    (hslot : findSlot db slotId = some slot)
    (havail : slot.status = .available)
    (hdoc : slot.doctorId = doctorId)
    (hnotpast : dtPast slot.slotDate slot.startTime nowDate nowTime = false)
    (hfresh : ∀ c ∈ db.consultations, c.id ≠ db.nextId) :
    (∃ db1,
      bookConsultation db uid doctorId slotId complaint nowDate nowTime
          ⟨false, true, pb⟩ = (db1, .error ⟨500, "Failed to book slot"⟩) ∧
      db1.consultations = db.consultations ∧
      db1.slots = db.slots ∧
      db1.payments = db.payments) ∧
    (∃ db1 c,
      bookConsultation db uid doctorId slotId complaint nowDate nowTime
          ⟨false, false, true⟩ = (db1, .ok (201, c)) ∧
      c = newConsultation db uid doctorId slotId slot complaint ∧
      db1.payments = db.payments ∧
      db1.consultations = db.consultations ++ [c] ∧
      db1.slots = setSlotStatus db.slots slotId .booked) := by
  constructor
  · unfold bookConsultation
    rw [hslot]
    dsimp only
    rw [if_neg (by simp [havail]), if_neg (by simp [hdoc]),
      if_neg (by simp [hnotpast]), if_neg (by simp), if_pos (by simp)]
    refine ⟨_, rfl, ?_, rfl, rfl⟩
    exact filter_append_fresh (fun x : Consultation => x.id)
      (newConsultation db uid doctorId slotId slot complaint)
      db.consultations (fun a ha => by simpa [newConsultation] using hfresh a ha)
  · unfold bookConsultation
    rw [hslot]
    dsimp only
    rw [if_neg (by simp [havail]), if_neg (by simp [hdoc]),
      if_neg (by simp [hnotpast]), if_neg (by simp), if_neg (by simp),
      if_pos (by simp)]
    exact ⟨_, _, rfl, rfl, rfl, rfl, rfl⟩

/-- C4 witness: both fault situations on the concrete booking store —
slot-update failure rolls the consultation back, payment failure leaves a
successful booking with no payment row. -/
theorem c4_book_rollback_and_payment_witness :
    (∃ db1,
      bookConsultation bookScenarioDB 20 1 1 "c" 4 0 ⟨false, true, false⟩ =
        (db1, .error ⟨500, "Failed to book slot"⟩) ∧
      db1.consultations = bookScenarioDB.consultations ∧
      db1.slots = bookScenarioDB.slots ∧
      db1.payments = bookScenarioDB.payments) ∧
    (∃ db1 c,
      bookConsultation bookScenarioDB 20 1 1 "c" 4 0 ⟨false, false, true⟩ =
        (db1, .ok (201, c)) ∧
      c = newConsultation bookScenarioDB 20 1 1 bookSlot1 "c" ∧
      db1.payments = bookScenarioDB.payments ∧
      db1.consultations = bookScenarioDB.consultations ++ [c] ∧
      db1.slots = setSlotStatus bookScenarioDB.slots 1 .booked) :=
  c4_book_rollback_and_payment bookScenarioDB 20 1 1 "c" 4 0 bookSlot1 false
    (by decide) (by decide) (by decide) (by decide)
    (by simp [bookScenarioDB])

/-- C5 counterexample: a consultation in terminal state CAN be moved to
`cancelled` by another operation. On the concrete store with a `completed`
consultation (id 1), an admin calling updateConsultation with status
`cancelled` succeeds and the stored consultation becomes `cancelled`,
refuting the claim that no operation performs this transition. -/
theorem c5_counterexample_update_cancels_completed :
    (updateConsultation terminalScenarioDB 99 .admin 1
        ⟨some .cancelled, none, none, none⟩).2 =
      .ok (200, { completedConsultation with status := .cancelled }) ∧
    findConsultation
      (updateConsultation terminalScenarioDB 99 .admin 1
        ⟨some .cancelled, none, none, none⟩).1 1 =
      some { completedConsultation with status := .cancelled } := by
  exact ⟨rfl, rfl⟩

/-- C5 (amended): cancelConsultation on a consultation whose status is
terminal (`completed` or `cancelled`) fails with 400 and leaves the store —
consultation and slot included — unchanged; however updateConsultation
performs no lifecycle guard, so an admin (or the owning doctor) can still
set a terminal consultation's status to `cancelled`. -/
theorem c5_terminal_cancel_guard (db : DB) (uid : Nat) (role : Role)
    (cid : Nat) (c : Consultation)
    (hfind : findConsultation db cid = some c)
    (hauth : ¬ (role = .user ∧ c.patientId ≠ uid))
    (hterm : c.status = .completed ∨ c.status = .cancelled) :
    cancelConsultation db uid role cid =
      (db, .error ⟨400, "Cannot cancel a " ++ statusStr c.status ++
        " consultation"⟩) ∧
    (∀ u : ConsultationUpdate, u.status = some .cancelled → ∀ ud : Nat,
      ∃ db1,
        updateConsultation db ud .admin cid u =
          (db1, .ok (200, applyConsultationUpdate u c)) ∧
        findConsultation db1 cid = some (applyConsultationUpdate u c) ∧
        (applyConsultationUpdate u c).status = .cancelled) := by
  constructor
  · unfold cancelConsultation
    rw [hfind]
    dsimp only
    rw [if_neg hauth, if_pos hterm]
  · intro u hu ud
    unfold updateConsultation
    rw [hfind]
    dsimp only
    rw [if_neg (by simp), if_pos hu]
    have hfound : ∀ l : List Consultation, l.find? (fun x => x.id == cid) = some c →
        (l.map (fun x => if x.id == cid then applyConsultationUpdate u x else x)).find?
          (fun x => x.id == cid) = some (applyConsultationUpdate u c) := by
      intro l hl
      rw [find?_update (fun x : Consultation => x.id)
        (applyConsultationUpdate u) cid (fun _ => rfl)]
      rw [hl]
      rfl
    cases hcs : c.slotId with
    | none =>
      refine ⟨_, rfl, ?_, by simp [applyConsultationUpdate, hu]⟩
      exact hfound db.consultations hfind
    | some sid =>
      refine ⟨_, rfl, ?_, by simp [applyConsultationUpdate, hu]⟩
      exact hfound db.consultations hfind

/-- C5 witness: on the concrete terminal store, the patient's cancel of the
completed consultation is rejected with 400 leaving the store unchanged,
and an admin's updateConsultation still cancels it. -/
theorem c5_terminal_cancel_guard_witness :
    cancelConsultation terminalScenarioDB 20 .user 1 =
      (terminalScenarioDB,
        .error ⟨400, "Cannot cancel a completed consultation"⟩) ∧
    ∃ db1,
      updateConsultation terminalScenarioDB 99 .admin 1
          ⟨some .cancelled, none, none, none⟩ =
        (db1, .ok (200, applyConsultationUpdate
          ⟨some .cancelled, none, none, none⟩ completedConsultation)) ∧
      findConsultation db1 1 = some (applyConsultationUpdate
        ⟨some .cancelled, none, none, none⟩ completedConsultation) ∧
      (applyConsultationUpdate ⟨some .cancelled, none, none, none⟩
        completedConsultation).status = .cancelled := by
  have h := c5_terminal_cancel_guard terminalScenarioDB 20 .user 1
    completedConsultation (by decide) (by decide) (by decide)
  exact ⟨h.1, h.2 ⟨some .cancelled, none, none, none⟩ (by decide) 99⟩

/-- C10: updateSlot has no slot-status guard — for any stored slot
(whatever its status, booked included) the owning doctor or an admin can
apply any partial update, setting the status to any of the three values and
changing date/times, and the operation never touches the consultations
table, so a booked slot can return to `available` while its referencing
consultation stays `scheduled`. -/
theorem c10_updateSlot_no_status_guard (db : DB) (uid : Nat) (role : Role)
    (slotId : Nat) (slot : Slot)
    (hfind : findSlot db slotId = some slot)
    (hauth : role = .admin ∨
      (role = .doctor ∧ doctorOwner db slot.doctorId = some uid)) :
    ∀ u : SlotUpdate, ∃ db1,
      updateSlot db uid role slotId u = (db1, .ok (200, applySlotUpdate u slot)) ∧
      findSlot db1 slotId = some (applySlotUpdate u slot) ∧
      db1.consultations = db.consultations ∧
      (∀ st : SlotStatus,
        (applySlotUpdate ⟨u.slotDate, u.startTime, u.endTime, some st⟩ slot).status
          = st) := by
  intro u
  unfold updateSlot
  rw [hfind]
  dsimp only
  rw [if_neg ?hna]
  case hna =>
    rcases hauth with h | ⟨h1, h2⟩
    · simp [h]
    · simp [h1, h2]
  refine ⟨_, rfl, ?_, rfl, by intro st; simp [applySlotUpdate]⟩
  show (db.slots.map _).find? _ = _
  rw [find?_update (fun s : Slot => s.id) (applySlotUpdate u) slotId
    (fun _ => rfl)]
  rw [show (db.slots.find? (fun s => s.id == slotId)) = some slot from hfind]
  rfl

/-- C10 witness: on the concrete store with a booked slot and its scheduled
consultation, the owning doctor sets the booked slot back to `available`;
the scheduled consultation is untouched. -/
theorem c10_updateSlot_no_status_guard_witness :
    ∃ db1,
      updateSlot bookedScenarioDB 10 .doctor 1 ⟨none, none, none, some .available⟩ =
        (db1, .ok (200, applySlotUpdate ⟨none, none, none, some .available⟩
          { bookSlot1 with status := .booked })) ∧
      findSlot db1 1 = some (applySlotUpdate ⟨none, none, none, some .available⟩
        { bookSlot1 with status := .booked }) ∧
      db1.consultations = bookedScenarioDB.consultations ∧
      (∀ st : SlotStatus,
        (applySlotUpdate ⟨none, none, none, some st⟩
          { bookSlot1 with status := .booked }).status = st) :=
  c10_updateSlot_no_status_guard bookedScenarioDB 10 .doctor 1
    { bookSlot1 with status := .booked } (by decide)
    (Or.inr ⟨rfl, by decide⟩) ⟨none, none, none, some .available⟩

/-- C7: register fails with 409 making no writes whenever a user with the
requested email exists; when the profile insert fails after the user insert
succeeded, the just-created user row is deleted and the operation fails
with 500; and every failing registration leaves the users and profiles
tables exactly as they were — no orphan profile, no leftover user. -/
theorem c7_register_conflict_and_rollback (db : DB) (p : RegisterPayload)
    (hfresh : ∀ u ∈ db.users, u.id ≠ db.nextId) :
    (∀ u0, db.users.find? (fun u => u.email == p.email) = some u0 →
      ∀ faults, register db p faults =
        (db, .error ⟨409, "User with this email already exists"⟩)) ∧
    (db.users.find? (fun u => u.email == p.email) = none →
      ∃ db1,
        register db p ⟨false, true⟩ =
          (db1, .error ⟨500, "Failed to create user profile"⟩) ∧
        db1.users = db.users ∧ db1.profiles = db.profiles) ∧
    (∀ faults db1 e, register db p faults = (db1, .error e) →
      db1.users = db.users ∧ db1.profiles = db.profiles) := by
  have hroll : (db.users ++ [newUser db p]).filter
      (fun x => x.id != (newUser db p).id) = db.users :=
    filter_append_fresh (fun x : User => x.id) (newUser db p) db.users
      (fun a ha => by simpa [newUser] using hfresh a ha)
  refine ⟨?_, ?_, ?_⟩
  · intro u0 h faults
    unfold register
    rw [h]
  · intro h
    unfold register
    rw [h]
    dsimp only
    rw [if_neg (by simp), if_pos (by simp)]
    exact ⟨_, rfl, hroll, rfl⟩
  · intro faults db1 e heq
    obtain ⟨fu, fp⟩ := faults
    unfold register at heq
    cases hf : db.users.find? (fun u => u.email == p.email) with
    | some u0 =>
      rw [hf] at heq
      dsimp only at heq
      have hdb : db = db1 := congrArg Prod.fst heq
      rw [← hdb]
      exact ⟨rfl, rfl⟩
    | none =>
      rw [hf] at heq
      dsimp only at heq
      cases fu with
      | true =>
        rw [if_pos rfl] at heq
        have hdb : db = db1 := congrArg Prod.fst heq
        rw [← hdb]
        exact ⟨rfl, rfl⟩
      | false =>
        rw [if_neg (by simp)] at heq
        cases fp with
        | true =>
          rw [if_pos rfl] at heq
          have hdb := congrArg Prod.fst heq
          dsimp only at hdb
          rw [← hdb]
          exact ⟨hroll, rfl⟩
        | false =>
          rw [if_neg (by simp)] at heq
          have := congrArg Prod.snd heq
          simp at this

/-- C7 witness: on the concrete auth store, registering with the active
account's email is rejected with 409 leaving the store unchanged, and a
profile-insert failure on a fresh email rolls the new user back. -/
theorem c7_register_conflict_and_rollback_witness :
    register authScenarioDB dupPayload ⟨false, false⟩ =
      (authScenarioDB, .error ⟨409, "User with this email already exists"⟩) ∧
    ∃ db1,
      register authScenarioDB freshPayload ⟨false, true⟩ =
        (db1, .error ⟨500, "Failed to create user profile"⟩) ∧
      db1.users = authScenarioDB.users ∧
      db1.profiles = authScenarioDB.profiles := by
  constructor
  · exact (c7_register_conflict_and_rollback authScenarioDB dupPayload
      (by decide)).1 activeUser (by decide) ⟨false, false⟩
  · exact (c7_register_conflict_and_rollback authScenarioDB freshPayload
      (by decide)).2.1 (by decide)

/-- C8 counterexample: a wrong-password attempt does distinguish a
deactivated account from an unknown one, because the deactivation check
runs before password verification — on the concrete auth store the same
wrong password yields 403 for the deactivated account but 401 for an
unknown email. -/
theorem c8_counterexample_deactivated_distinguishable :
    (login authScenarioDB "dead@example.com" "wrong-pw" 7).2 =
      .error ⟨403, "Account is deactivated"⟩ ∧
    (login authScenarioDB "ghost@example.com" "wrong-pw" 7).2 =
      .error ⟨401, "Invalid email or password"⟩ :=
  ⟨rfl, rfl⟩

/-- C8 (amended): login returns 401 with the identical message for an
unknown email and for a password mismatch on an active account; it returns
403 exactly when the named account exists and is deactivated — and this
check runs before password verification, so a wrong-password attempt on a
deactivated account reveals the deactivation; a successful login updates
the last-login timestamp and returns the signed token payload. -/
theorem c8_login_enumeration (db : DB) (email password : String) (now : Nat) :
    (db.users.find? (fun u => u.email == email) = none →
      login db email password now =
        (db, .error ⟨401, "Invalid email or password"⟩)) ∧
    (∀ u, db.users.find? (fun x => x.email == email) = some u →
      u.isActive = false →
      login db email password now =
        (db, .error ⟨403, "Account is deactivated"⟩)) ∧
    (∀ u, db.users.find? (fun x => x.email == email) = some u →
      u.isActive = true → bcryptCompare password u.passwordHash = false →
      login db email password now =
        (db, .error ⟨401, "Invalid email or password"⟩)) ∧
    (∀ u, db.users.find? (fun x => x.email == email) = some u →
      u.isActive = true → bcryptCompare password u.passwordHash = true →
      ∃ db1,
        login db email password now = (db1, .ok (200, ⟨u.id, u.email, u.role⟩)) ∧
        db1.users = db.users.map
          (fun x => if x.id == u.id then { x with lastLogin := some now } else x)) := by
  refine ⟨?_, ?_, ?_, ?_⟩
  · intro h
    unfold login
    rw [h]
  · intro u h hin
    unfold login
    rw [h]
    dsimp only
    rw [if_pos (by simp [hin])]
  · intro u h hact hpw
    unfold login
    rw [h]
    dsimp only
    rw [if_neg (by simp [hact]), if_pos (by simp [hpw])]
  · intro u h hact hpw
    unfold login
    rw [h]
    dsimp only
    rw [if_neg (by simp [hact]), if_neg (by simp [hpw])]
    exact ⟨_, rfl, rfl⟩

/-- C8 amended-theorem witness: all four login branches on the concrete
auth store — unknown email, deactivated account (wrong password), active
account with wrong password (same 401 message as unknown email), and a
successful login stamping the last-login time. -/
theorem c8_login_enumeration_witness :
    login authScenarioDB "ghost@example.com" "wrong-pw" 7 =
      (authScenarioDB, .error ⟨401, "Invalid email or password"⟩) ∧
    login authScenarioDB "dead@example.com" "wrong-pw" 7 =
      (authScenarioDB, .error ⟨403, "Account is deactivated"⟩) ∧
    login authScenarioDB "active@example.com" "wrong-pw" 7 =
      (authScenarioDB, .error ⟨401, "Invalid email or password"⟩) ∧
    ∃ db1,
      login authScenarioDB "active@example.com" "correct-pw" 7 =
        (db1, .ok (200, ⟨1, "active@example.com", .user⟩)) ∧
      db1.users = authScenarioDB.users.map
        (fun x => if x.id == 1 then { x with lastLogin := some 7 } else x) := by
  refine ⟨?_, ?_, ?_, ?_⟩
  · exact (c8_login_enumeration authScenarioDB "ghost@example.com"
      "wrong-pw" 7).1 (by decide)
  · exact (c8_login_enumeration authScenarioDB "dead@example.com"
      "wrong-pw" 7).2.1 deactivatedUser (by decide) (by decide)
  · exact (c8_login_enumeration authScenarioDB "active@example.com"
      "wrong-pw" 7).2.2.1 activeUser (by decide) (by decide) (by decide)
  · exact (c8_login_enumeration authScenarioDB "active@example.com"
      "correct-pw" 7).2.2.2 activeUser (by decide) (by decide) (by decide)

/-- C6: createPrescription fails with 409 when a prescription already
exists for the consultation, with 404 when any referenced medicine id is
missing from the catalog, and with 400 listing the offending names when any
referenced medicine is out of stock — each failure leaving the store
untouched; and an item-insert failure deletes the just-created prescription
so that no prescription or item row from the request persists. -/
theorem c6_prescription_failures_atomic (db : DB) (uid consultationId : Nat)
    (items : List PrescriptionItemReq) (notes : Option String)
    (doctor : Doctor) (consultation : Consultation)
    (hlen : 1 ≤ items.length)
    (hdoc : findDoctorByUser db uid = some doctor)
    (hcons : findConsultation db consultationId = some consultation)
    (hown : consultation.doctorId = doctor.id)
    (hstat : consultation.status = .completed ∨ consultation.status = .ongoing)
    (htable : (db.medicines.map (fun m => m.id)).Nodup)
    (hfresh : ∀ pr ∈ db.prescriptions, pr.id ≠ db.nextId) :
    (∀ p0, db.prescriptions.find?
        (fun pr => pr.consultationId == consultationId) = some p0 →
      ∀ faults, createPrescription db uid consultationId items notes faults =
        (db, .error ⟨409, "Prescription already exists for this consultation"⟩)) ∧
    (db.prescriptions.find?
        (fun pr => pr.consultationId == consultationId) = none →
      ∀ idm, idm ∈ items.map (fun it => it.medicineId) →
      (∀ m ∈ db.medicines, m.id ≠ idm) →
      ∀ faults, createPrescription db uid consultationId items notes faults =
        (db, .error ⟨404, "One or more medicines not found"⟩)) ∧
    (db.prescriptions.find?
        (fun pr => pr.consultationId == consultationId) = none →
      (requestedMedicines db (items.map (fun it => it.medicineId))).length =
        (items.map (fun it => it.medicineId)).length →
      outOfStockNames db (items.map (fun it => it.medicineId)) ≠ [] →
      ∀ faults, createPrescription db uid consultationId items notes faults =
        (db, .error ⟨400, "Following medicines are out of stock: " ++
          String.intercalate ", "
            (outOfStockNames db (items.map (fun it => it.medicineId)))⟩)) ∧
    (db.prescriptions.find?
        (fun pr => pr.consultationId == consultationId) = none →
      (requestedMedicines db (items.map (fun it => it.medicineId))).length =
        (items.map (fun it => it.medicineId)).length →
      outOfStockNames db (items.map (fun it => it.medicineId)) = [] →
      ∃ db1,
        createPrescription db uid consultationId items notes ⟨false, true⟩ =
          (db1, .error ⟨500, "Failed to create prescription items"⟩) ∧
        db1.prescriptions = db.prescriptions ∧
        db1.prescriptionItems = db.prescriptionItems) := by
  have hstatneg : ¬ (consultation.status ≠ .completed ∧
      consultation.status ≠ .ongoing) := by
    rcases hstat with h | h <;> simp [h]
  refine ⟨?_, ?_, ?_, ?_⟩
  · intro p0 hp0 faults
    unfold createPrescription
    rw [if_neg (by omega), hdoc]
    dsimp only
    rw [hcons]
    dsimp only
    rw [if_neg (by simp [hown]), if_neg hstatneg, hp0]
  · intro hnone idm hidm hmiss faults
    unfold createPrescription
    rw [if_neg (by omega), hdoc]
    dsimp only
    rw [hcons]
    dsimp only
    rw [if_neg (by simp [hown]), if_neg hstatneg, hnone]
    dsimp only
    rw [if_pos (Nat.ne_of_lt
      (requested_length_lt_of_missing db _ htable idm hidm hmiss))]
  · intro hnone hleneq hoos faults
    unfold createPrescription
    rw [if_neg (by omega), hdoc]
    dsimp only
    rw [hcons]
    dsimp only
    rw [if_neg (by simp [hown]), if_neg hstatneg, hnone]
    dsimp only
    rw [if_neg (by simp [hleneq]), if_pos hoos]
  · intro hnone hleneq hoosnil
    unfold createPrescription
    rw [if_neg (by omega), hdoc]
    dsimp only
    rw [hcons]
    dsimp only
    rw [if_neg (by simp [hown]), if_neg hstatneg, hnone]
    dsimp only
    rw [if_neg (by simp [hleneq]), if_neg (by simp [hoosnil]),
      if_neg (by simp), if_pos (by simp)]
    refine ⟨_, rfl, ?_, rfl⟩
    exact filter_append_fresh (fun x : Prescription => x.id)
      (newPrescription db consultationId doctor.id consultation.patientId notes)
      db.prescriptions
      (fun a ha => by simpa [newPrescription] using hfresh a ha)

/-- C6 witness: the four failure branches on the concrete prescription
stores — duplicate prescription (409), missing medicine id 9 (404),
out-of-stock Amoxicillin listed in the 400 message, and an item-insert
failure leaving no prescription or item rows behind. -/
theorem c6_prescription_failures_atomic_witness :
    createPrescription prescDupDB 10 1 [itemReq 1] none ⟨false, false⟩ =
      (prescDupDB,
        .error ⟨409, "Prescription already exists for this consultation"⟩) ∧
    createPrescription prescScenarioDB 10 1 [itemReq 9] none ⟨false, false⟩ =
      (prescScenarioDB, .error ⟨404, "One or more medicines not found"⟩) ∧
    createPrescription prescScenarioDB 10 1 [itemReq 1, itemReq 3] none
        ⟨false, false⟩ =
      (prescScenarioDB, .error ⟨400,
        "Following medicines are out of stock: Amoxicillin"⟩) ∧
    ∃ db1,
      createPrescription prescScenarioDB 10 1 [itemReq 1, itemReq 2] none
          ⟨false, true⟩ =
        (db1, .error ⟨500, "Failed to create prescription items"⟩) ∧
      db1.prescriptions = prescScenarioDB.prescriptions ∧
      db1.prescriptionItems = prescScenarioDB.prescriptionItems := by
  refine ⟨?_, ?_, ?_, ?_⟩
  · exact (c6_prescription_failures_atomic prescDupDB 10 1 [itemReq 1] none
      { id := 1, userId := 10, consultationFee := 500 }
      { completedConsultation with status := .ongoing }
      (by decide) (by decide) (by decide) (by decide) (by decide) (by decide)
      (by decide)).1 existingPrescription (by decide) ⟨false, false⟩
  · exact (c6_prescription_failures_atomic prescScenarioDB 10 1 [itemReq 9]
      none { id := 1, userId := 10, consultationFee := 500 }
      { completedConsultation with status := .ongoing }
      (by decide) (by decide) (by decide) (by decide) (by decide) (by decide)
      (by decide)).2.1 (by decide) 9 (by decide) (by decide) ⟨false, false⟩
  · have h := (c6_prescription_failures_atomic prescScenarioDB 10 1
      [itemReq 1, itemReq 3] none
      { id := 1, userId := 10, consultationFee := 500 }
      { completedConsultation with status := .ongoing }
      (by decide) (by decide) (by decide) (by decide) (by decide) (by decide)
      (by decide)).2.2.1 (by decide) (by decide) (by decide) ⟨false, false⟩
    exact h
  · exact (c6_prescription_failures_atomic prescScenarioDB 10 1
      [itemReq 1, itemReq 2] none
      { id := 1, userId := 10, consultationFee := 500 }
      { completedConsultation with status := .ongoing }
      (by decide) (by decide) (by decide) (by decide) (by decide) (by decide)
      (by decide)).2.2.2 (by decide) (by decide) (by decide)

/-- C9: a request whose item list names the same medicine id twice fails
with 404 "One or more medicines not found" even though every referenced
medicine exists and is in stock, because the batch query returns one row
per distinct id while its length is compared against the raw item count. -/
theorem c9_duplicate_medicine_ids_rejected (db : DB) (uid consultationId : Nat)
    (items : List PrescriptionItemReq) (notes : Option String)
    (doctor : Doctor) (consultation : Consultation) (faults : PrescFaults)
    (hlen : 1 ≤ items.length)
    (hdoc : findDoctorByUser db uid = some doctor)
    (hcons : findConsultation db consultationId = some consultation)
    (hown : consultation.doctorId = doctor.id)
    (hstat : consultation.status = .completed ∨ consultation.status = .ongoing)
    (hnopr : db.prescriptions.find?
      (fun pr => pr.consultationId == consultationId) = none)
    (htable : (db.medicines.map (fun m => m.id)).Nodup)
    (hdup : ¬ (items.map (fun it => it.medicineId)).Nodup)
    (_hall : ∀ i ∈ items.map (fun it => it.medicineId),
      ∃ m ∈ db.medicines, m.id = i ∧ m.inStock = true) :
    createPrescription db uid consultationId items notes faults =
      (db, .error ⟨404, "One or more medicines not found"⟩) := by
  have hstatneg : ¬ (consultation.status ≠ .completed ∧
      consultation.status ≠ .ongoing) := by
    rcases hstat with h | h <;> simp [h]
  unfold createPrescription
  rw [if_neg (by omega), hdoc]
  dsimp only
  rw [hcons]
  dsimp only
  rw [if_neg (by simp [hown]), if_neg hstatneg, hnopr]
  dsimp only
  rw [if_pos (Nat.ne_of_lt (requested_length_lt_of_dup db _ htable hdup))]

/-- C9 witness: on the concrete prescription store, requesting Paracetamol
(id 1, in stock) twice is rejected with 404 although the medicine exists. -/
theorem c9_duplicate_medicine_ids_rejected_witness :
    createPrescription prescScenarioDB 10 1 [itemReq 1, itemReq 1] none
        ⟨false, false⟩ =
      (prescScenarioDB, .error ⟨404, "One or more medicines not found"⟩) :=
  c9_duplicate_medicine_ids_rejected prescScenarioDB 10 1
    [itemReq 1, itemReq 1] none
    { id := 1, userId := 10, consultationFee := 500 }
    { completedConsultation with status := .ongoing } ⟨false, false⟩
    (by decide) (by decide) (by decide) (by decide) (by decide) (by decide)
    (by decide) (by decide)
    (by
      intro i hi
      have hi1 : i = 1 := by simpa [itemReq] using hi
      exact ⟨med1, by simp [prescScenarioDB], by simp [med1, hi1], rfl⟩)

end Telemed
